import Mathlib

/-!
Verification of the `sncloud` client (src/sncloud/api.py) against its
natural-language specification.

The embedding models the remote service as a pure map from directory ids to
the raw listing the service would deliver (in delivered order), and each
client operation as a pure function from the session token, that map and the
operation's arguments to an `Except` result paired with the number of
Remote Directory Lister requests actually issued.
-/

deriving instance DecidableEq for Except

namespace Sncloud

/-- Kind tag of a resolved entry: `File` or `Directory` in `sncloud.models`.
The spec (§3) describes Entry as a discriminated union over the two. -/
inductive EntryKind where
  | file
  | directory
deriving DecidableEq, Repr

/-- A resolved entry (`File` / `Directory` object of `sncloud.models`): the
fields the spec gives as common (§3): `id`, `file_name`, `directory_id`
(the parent's id; `none` models Python `parent_id=None` on the synthetic
root). -/
structure Entry where
  kind : EntryKind
  id : Int
  file_name : String
  directory_id : Option Int
deriving DecidableEq, Repr

/-- One raw item of the wire response `userFileVOList` (§6): at least
`{id, fileName, isFolder ("Y"/"N"), directoryId}`. -/
structure RawItem where
  isFolder : String
  id : Int
  fileName : String
  directoryId : Int
deriving DecidableEq, Repr

/-- The state of the remote tree: the listing the service delivers for each
directory id, in its delivered (time-descending) order. -/
abbrev Tree := Int → List RawItem

/-- Error taxonomy of the code: `ApiError`, `AuthenticationError`,
`FileFolderNotFound` (sncloud.exceptions) plus the Python builtins the code
can raise (`TypeError`, `ValueError`, `IndexError`). -/
inductive Err where
  | apiError (msg : String)
  | authenticationError (msg : String)
  | fileFolderNotFound (msg : String)
  | typeError (msg : String)
  | valueError (msg : String)
  | indexError
deriving DecidableEq, Repr

/-- api.py line 311: `Directory(**item) if item["isFolder"] == "Y" else
File(**item)`. -/
def materialize (it : RawItem) : Entry :=
  if it.isFolder = "Y" then
    ⟨.directory, it.id, it.fileName, some it.directoryId⟩
  else
    ⟨.file, it.id, it.fileName, some it.directoryId⟩

/-- The fixed ls request body of api.py lines 301-307. -/
structure LsPayload where
  directoryId : Int
  pageNo : Nat
  pageSize : Nat
  order : String
  sequence : String
deriving DecidableEq, Repr

/-- The core of `SNClient.ls` (api.py lines 296-313) once the directory
argument is already an integer id: authentication check first, then one
listing request with the fixed page parameters, each response item
materialized by its folder flag.  An `ok` result stands for exactly one
issued listing request; an `error` result stands for none. -/
def lsById (token : Option String) (tree : Tree) (dirId : Int) :
    Except Err (LsPayload × List Entry) :=
  match token with
  | none => .error (.authenticationError "Must be authenticated to list files")
  | some _ => .ok (⟨dirId, 1, 100, "time", "desc"⟩, (tree dirId).map materialize)

/-- Split a character list at every `/`. -/
def splitOnSlash : List Char → List (List Char)
  | [] => [[]]
  | c :: cs =>
    let r := splitOnSlash cs
    if c = '/' then [] :: r
    else
      match r with
      | [] => [[c]]
      | g :: gs => (c :: g) :: gs

/-- Path splitting as `pathlib.Path(...).parts` behaves on the segments after
the root marker: split on `/`, drop empty components and single-dot
components (`..` is kept, as pathlib keeps it). -/
def splitSegs (s : String) : List String :=
  ((splitOnSlash s.data).map String.mk).filter (fun seg => seg ≠ "" && seg ≠ ".")

/-- `pathlib.Path(s).parts`: a leading `/` becomes the root part `"/"`.
(POSIX treats exactly two leading slashes specially — `Path("//a").parts`
starts with `"//"` — an edge no claim exercises; the model folds any run of
leading slashes into one root part.) -/
def pathParts (s : String) : List String :=
  if s.data.head? = some '/' then "/" :: splitSegs s else splitSegs s

/-- The segment sequence of `SNClient._get_item` (api.py lines 235-240):
`Path(item).parts` with a single leading root part removed. -/
def strippedParts (s : String) : List String :=
  let parts0 := pathParts s
  if parts0.head? = some "/" then parts0.tail else parts0

/-- The synthetic root directory of api.py lines 232/244:
`Directory(id=0, file_name="/", parent_id=None)`. -/
def rootDirectory : Entry := ⟨.directory, 0, "/", none⟩

/-- Modelled from the spec: the `parent` attribute of `sncloud.models`
entries (used at api.py line 231) — `models.py` is not under `src/`.  Spec
§3 gives `directory_id` as the parent's id and §4.2 step 1 requires the
root-listing workaround to agree that the root id is 0, so `parent` is a
Directory entry whose id is the entry's `directory_id` (0 when absent). -/
def Entry.parent (e : Entry) : Entry :=
  ⟨.directory, e.directory_id.getD 0, "/", none⟩

/-- The directory-segment walk of `SNClient._get_item` (api.py lines
250-266): for each remaining segment, scan the current items for the first
Directory child with exactly that `file_name`; on a match fetch that
directory's listing and continue, on no match fail at once with
`FileFolderNotFound` naming the segment and the slash-joined prefix
`parts[:i+1]`.  Returns the final cursor and its listing, and counts the
listing requests it issued. -/
def walkDirs (token : Option String) (tree : Tree) (parts : List String) :
    List String → Nat → Option Entry → List Entry →
    (Except Err (Option Entry × List Entry)) × Nat
  | [], _, currentDir, currentItems => (.ok (currentDir, currentItems), 0)
  | part :: rest, i, _, currentItems =>
    match currentItems.find?
        (fun it => decide (it.file_name = part) && decide (it.kind = EntryKind.directory)) with
    | some e =>
      match lsById token tree e.id with
      | .error err => (.error err, 0)
      | .ok (_, items) =>
        let r := walkDirs token tree parts rest (i + 1) (some e) items
        (r.1, r.2 + 1)
    | none =>
      (.error (.fileFolderNotFound ("Directory not found: " ++ part ++ " in " ++
        ("/" ++ String.intercalate "/" (parts.take (i + 1))))), 0)

/-- api.py lines 242-276 once the segment sequence is in hand: an empty
sequence is the synthetic root with no request; otherwise the final segment
is file-classified iff it contains a `.`, the directory segments are walked
from the root listing, and a file-classified final segment is looked up
(any entry kind, first match) in the last-fetched listing. -/
def resolveParts (token : Option String) (tree : Tree) (parts : List String) :
    (Except Err Entry) × Nat :=
  if parts = [] then (.ok rootDirectory, 0)
  else
    let lastSeg := parts.getLastD ""
    let isFile := lastSeg.data.contains '.'
    let dirParts := if isFile then parts.dropLast else parts
    match lsById token tree 0 with
    | .error e => (.error e, 0)
    | .ok (_, items0) =>
      let r := walkDirs token tree parts dirParts 0 none items0
      match r.1 with
      | .error e => (.error e, r.2 + 1)
      | .ok (currentDir, currentItems) =>
        if isFile then
          match currentItems.find? (fun it => decide (it.file_name = lastSeg)) with
          | some e => (.ok e, r.2 + 1)
          | none =>
            (.error (.fileFolderNotFound ("File not found: " ++ lastSeg ++
              " in /" ++ String.intercalate "/" dirParts)), r.2 + 1)
        else
          match currentDir with
          | some e => (.ok e, r.2 + 1)
          | none =>
            -- Unreachable: a directory-classified final segment makes
            -- dirParts nonempty, so the walk set the cursor or failed.
            -- Python would return None here and fail downstream.
            (.error (.typeError "NoneType"), r.2 + 1)

/-- `SNClient._get_item` on a string path (api.py lines 224-276).  The
returned `Nat` counts the Remote Directory Lister requests issued.  The
`"/"` special case (lines 226-232) lists the root and returns the first
item's parent, falling back to the synthetic root on an empty listing; any
other string is split and resolved by `resolveParts`. -/
def getItemStr (token : Option String) (tree : Tree) (item : String) :
    (Except Err Entry) × Nat :=
  if item = "/" then
    match lsById token tree 0 with
    | .error e => (.error e, 0)
    | .ok (_, items) =>
      match items with
      | it :: _ => (.ok it.parent, 1)
      | [] => (.ok rootDirectory, 1)
  else
    resolveParts token tree (strippedParts item)

/-- The shapes a directory reference can take at the Normalizer boundary:
the annotated union `None | int | str | Directory` of
`SNClient._get_directory_id`, with `entry` also covering a `File` object
passed where a `Directory` was expected (the "other shape" the claim's
`InvalidArgument` clause is about). -/
inductive DirRef where
  | null
  | int (i : Int)
  | str (s : String)
  | entry (e : Entry)
deriving DecidableEq, Repr

/-- `SNClient._get_directory_id` (api.py lines 176-206): `None`/`0`/`"/"`
are the root (id 0, no request); a string is resolved through `_get_item`;
a `Directory` object yields its own id with no request; a raw integer
passes through; anything else — here a `File` object, which fails both the
`isinstance(..., Directory)` and `isinstance(..., int)` checks, `File` and
`Directory` being the two disjoint constructors of the spec's discriminated
union (§3) — raises `ValueError`.  A string that resolves to a `File`
falls through the same `isinstance` chain to the `ValueError`. -/
def getDirectoryId (token : Option String) (tree : Tree) (d : DirRef) :
    (Except Err Int) × Nat :=
  if d = .null ∨ d = .int 0 ∨ d = .str "/" then (.ok 0, 0)
  else
    match d with
    | .null => (.ok 0, 0)
    | .str s =>
      match getItemStr token tree s with
      | (.error e, n) => (.error e, n)
      | (.ok ent, n) =>
        if ent.kind = EntryKind.directory then (.ok ent.id, n)
        else (.error (.valueError "Invalid directory type"), n)
    | .entry e =>
      if e.kind = EntryKind.directory then (.ok e.id, 0)
      else (.error (.valueError "Invalid directory type"), 0)
    | .int i => (.ok i, 0)

/-- `SNClient.ls` in full (api.py lines 281-313): authentication check
before anything else, then the directory reference is normalized and the
single fixed-parameter page is requested.  The count tallies every listing
request, including those the normalization itself issues. -/
def ls (token : Option String) (tree : Tree) (d : DirRef) :
    (Except Err (LsPayload × List Entry)) × Nat :=
  match token with
  | none => (.error (.authenticationError "Must be authenticated to list files"), 0)
  | some _ =>
    match getDirectoryId token tree d with
    | (.error e, n) => (.error e, n)
    | (.ok dirId, n) =>
      match lsById token tree dirId with
      | .error e => (.error e, n)
      | .ok r => (.ok r, n + 1)

/-- An argument to `_get_item`: a path string or an already-resolved
`File`/`Directory` object. -/
inductive ItemRef where
  | str (s : String)
  | entry (e : Entry)
deriving DecidableEq, Repr

/-- `SNClient._get_item` (api.py lines 208-279): an already-resolved object
is returned directly with no request (line 221); a string goes through path
resolution. -/
def getItem (token : Option String) (tree : Tree) : ItemRef → (Except Err Entry) × Nat
  | .entry e => (.ok e, 0)
  | .str s => getItemStr token tree s

/-- The delete request body of api.py lines 533-536. -/
structure DeletePayload where
  directoryId : Option Int
  idList : List Int
deriving DecidableEq, Repr

/-- The argument of `SNClient.delete`: a single item or a batch. -/
inductive DeleteArg where
  | single (i : ItemRef)
  | batch (is : List ItemRef)
deriving DecidableEq, Repr

/-- Resolve each reference of a batch in order (the list comprehension of
api.py line 525), accumulating the listing-request count and stopping at
the first resolution failure. -/
def resolveAll (token : Option String) (tree : Tree) :
    List ItemRef → (Except Err (List Entry)) × Nat
  | [] => (.ok [], 0)
  | r :: rs =>
    match getItem token tree r with
    | (.error e, n) => (.error e, n)
    | (.ok ent, n) =>
      match resolveAll token tree rs with
      | (.error e, m) => (.error e, n + m)
      | (.ok ents, m) => (.ok (ent :: ents), n + m)

/-- `SNClient.delete` (api.py lines 507-541): authentication check, resolve
the item(s); for a batch, read `to_delete[0].directory_id` (an
`IndexError` on an empty batch) and raise `FileFolderNotFound` on the first
resolved item whose `directory_id` differs; then build the one delete
request carrying every id.  An `ok` result stands for exactly one issued
delete request with that body; an `error` result stands for none. -/
def delete (token : Option String) (tree : Tree) (arg : DeleteArg) :
    (Except Err DeletePayload) × Nat :=
  match token with
  | none => (.error (.authenticationError "Must be authenticated to upload files"), 0)
  | some _ =>
    let resolved : (Except Err (List Entry)) × Nat :=
      match arg with
      | .batch refs => resolveAll token tree refs
      | .single r =>
        match getItem token tree r with
        | (.error e, n) => (.error e, n)
        | (.ok ent, n) => (.ok [ent], n)
    match resolved with
    | (.error e, n) => (.error e, n)
    | (.ok [], n) => (.error .indexError, n)
    | (.ok (first :: rest), n) =>
      match (first :: rest).find?
          (fun i => !decide (i.directory_id = first.directory_id)) with
      | some bad =>
        (.error (.fileFolderNotFound
          ("Files are not in the same directory: " ++ bad.file_name)), n)
      | none =>
        (.ok ⟨first.directory_id, (first :: rest).map (fun i => i.id)⟩, n)

/-! ### The hashing used by `SNClient.login`

`calc_md5` / `calc_sha256` (api.py lines 14-45) delegate to `hashlib`;
the algorithms are embedded here in full (RFC 1321 MD5 and FIPS 180-4
SHA-256 over byte lists, bytes as `Nat` below 256). -/

/-- Truncation to a 32-bit word. -/
def w32 (n : Nat) : Nat := n % 4294967296

/-- 32-bit right rotation (operand below `2^32`). -/
def rotr32 (r n : Nat) : Nat := w32 ((n >>> r) ||| (n <<< (32 - r)))

/-- 32-bit left rotation (operand below `2^32`). -/
def rotl32 (r n : Nat) : Nat := w32 ((n <<< r) ||| (n >>> (32 - r)))

/-- UTF-8 encoding of one character, as Python's `str.encode("utf-8")`
produces per code point. -/
def utf8EncodeChar (c : Char) : List Nat :=
  let n := c.toNat
  if n < 128 then [n]
  else if n < 2048 then [192 ||| (n >>> 6), 128 ||| (n &&& 63)]
  else if n < 65536 then
    [224 ||| (n >>> 12), 128 ||| ((n >>> 6) &&& 63), 128 ||| (n &&& 63)]
  else
    [240 ||| (n >>> 18), 128 ||| ((n >>> 12) &&& 63),
     128 ||| ((n >>> 6) &&& 63), 128 ||| (n &&& 63)]

/-- UTF-8 encoding of a string: `s.encode("utf-8")`. -/
def utf8Encode (s : String) : List Nat := s.data.flatMap utf8EncodeChar

/-- The lowercase hexadecimal digit of `n % 16`, as `hexdigest` renders
each nibble. -/
def hexChar (n : Nat) : Char :=
  match n % 16 with
  | 0 => '0' | 1 => '1' | 2 => '2' | 3 => '3' | 4 => '4' | 5 => '5'
  | 6 => '6' | 7 => '7' | 8 => '8' | 9 => '9' | 10 => 'a' | 11 => 'b'
  | 12 => 'c' | 13 => 'd' | 14 => 'e' | _ => 'f'

/-- One byte as two lowercase hex digits (`%02x`). -/
def byteToHex (b : Nat) : List Char := [hexChar (b / 16), hexChar b]

/-- A byte list as its lowercase hexadecimal string: `hexdigest()` of a
digest. -/
def bytesToHex (bs : List Nat) : String := String.mk (bs.flatMap byteToHex)

/-- Merkle–Damgård padding shared by MD5 and SHA-256: append `0x80`, zero
bytes up to 56 mod 64, then the bit length on 8 bytes (rendered by
`lenBytes`: little-endian for MD5, big-endian for SHA-256). -/
def padMsg (lenBytes : Nat → List Nat) (msg : List Nat) : List Nat :=
  let L := msg.length
  msg ++ [128] ++ List.replicate ((55 + 64 - L % 64) % 64) 0 ++ lenBytes (8 * L)

/-- A number as 8 little-endian bytes. -/
def le64 (n : Nat) : List Nat := (List.range 8).map (fun i => (n >>> (8 * i)) % 256)

/-- A number as 8 big-endian bytes. -/
def be64 (n : Nat) : List Nat := (List.range 8).map (fun i => (n >>> (8 * (7 - i))) % 256)

/-- A 32-bit word as 4 little-endian bytes. -/
def le32 (n : Nat) : List Nat := [n % 256, (n >>> 8) % 256, (n >>> 16) % 256, (n >>> 24) % 256]

/-- A 32-bit word as 4 big-endian bytes. -/
def be32 (n : Nat) : List Nat := [(n >>> 24) % 256, (n >>> 16) % 256, (n >>> 8) % 256, n % 256]

/-- A padded message as its 64-byte blocks. -/
def chunks64 (l : List Nat) : List (List Nat) :=
  (List.range (l.length / 64)).map (fun i => (l.drop (64 * i)).take 64)

/-- Word `i` of a block, big-endian (SHA-256). -/
def beWord (chunk : List Nat) (i : Nat) : Nat :=
  chunk.getD (4 * i) 0 * 16777216 + chunk.getD (4 * i + 1) 0 * 65536 +
    chunk.getD (4 * i + 2) 0 * 256 + chunk.getD (4 * i + 3) 0

/-- Word `i` of a block, little-endian (MD5). -/
def leWord (chunk : List Nat) (i : Nat) : Nat :=
  chunk.getD (4 * i) 0 + chunk.getD (4 * i + 1) 0 * 256 +
    chunk.getD (4 * i + 2) 0 * 65536 + chunk.getD (4 * i + 3) 0 * 16777216

/-- The SHA-256 round constants. -/
def sha256K : List Nat := [
  1116352408, 1899447441, 3049323471, 3921009573, 961987163, 1508970993,
  2453635748, 2870763221, 3624381080, 310598401, 607225278, 1426881987,
  1925078388, 2162078206, 2614888103, 3248222580, 3835390401, 4022224774,
  264347078, 604807628, 770255983, 1249150122, 1555081692, 1996064986,
  2554220882, 2821834349, 2952996808, 3210313671, 3336571891, 3584528711,
  113926993, 338241895, 666307205, 773529912, 1294757372, 1396182291,
  1695183700, 1986661051, 2177026350, 2456956037, 2730485921, 2820302411,
  3259730800, 3345764771, 3516065817, 3600352804, 4094571909, 275423344,
  430227734, 506948616, 659060556, 883997877, 958139571, 1322822218,
  1537002063, 1747873779, 1955562222, 2024104815, 2227730452, 2361852424,
  2428436474, 2756734187, 3204031479, 3329325298]

/-- The SHA-256 working state. -/
structure Sha256State where
  a : Nat
  b : Nat
  c : Nat
  d : Nat
  e : Nat
  f : Nat
  g : Nat
  hh : Nat
deriving DecidableEq, Repr

/-- The SHA-256 initial hash value. -/
def sha256Init : Sha256State :=
  ⟨1779033703, 3144134277, 1013904242, 2773480762,
   1359893119, 2600822924, 528734635, 1541459225⟩

/-- One step of the SHA-256 message-schedule extension. -/
def sha256ExtendStep (w : Array Nat) (i : Nat) : Array Nat :=
  let w15 := w.getD (i - 15) 0
  let w2 := w.getD (i - 2) 0
  let s0 := (rotr32 7 w15) ^^^ (rotr32 18 w15) ^^^ (w15 >>> 3)
  let s1 := (rotr32 17 w2) ^^^ (rotr32 19 w2) ^^^ (w2 >>> 10)
  w.push (w32 (w.getD (i - 16) 0 + s0 + w.getD (i - 7) 0 + s1))

/-- The 64-word message schedule of a block. -/
def sha256Schedule (chunk : List Nat) : Array Nat :=
  (List.range 48).foldl (fun w j => sha256ExtendStep w (j + 16))
    ((List.range 16).map (beWord chunk)).toArray

/-- One SHA-256 compression round. -/
def sha256Round (w : Array Nat) (st : Sha256State) (i : Nat) : Sha256State :=
  let S1 := (rotr32 6 st.e) ^^^ (rotr32 11 st.e) ^^^ (rotr32 25 st.e)
  let ch := (st.e &&& st.f) ^^^ ((4294967295 ^^^ st.e) &&& st.g)
  let temp1 := w32 (st.hh + S1 + ch + sha256K.getD i 0 + w.getD i 0)
  let S0 := (rotr32 2 st.a) ^^^ (rotr32 13 st.a) ^^^ (rotr32 22 st.a)
  let maj := (st.a &&& st.b) ^^^ (st.a &&& st.c) ^^^ (st.b &&& st.c)
  let temp2 := w32 (S0 + maj)
  ⟨w32 (temp1 + temp2), st.a, st.b, st.c, w32 (st.d + temp1), st.e, st.f, st.g⟩

/-- SHA-256 compression of one 64-byte block into the chaining state. -/
def sha256ProcessChunk (st : Sha256State) (chunk : List Nat) : Sha256State :=
  let w := sha256Schedule chunk
  let r := (List.range 64).foldl (sha256Round w) st
  ⟨w32 (st.a + r.a), w32 (st.b + r.b), w32 (st.c + r.c), w32 (st.d + r.d),
   w32 (st.e + r.e), w32 (st.f + r.f), w32 (st.g + r.g), w32 (st.hh + r.hh)⟩

/-- The SHA-256 digest (32 bytes) of a byte message. -/
def sha256Bytes (msg : List Nat) : List Nat :=
  let st := (chunks64 (padMsg be64 msg)).foldl sha256ProcessChunk sha256Init
  be32 st.a ++ be32 st.b ++ be32 st.c ++ be32 st.d ++
    be32 st.e ++ be32 st.f ++ be32 st.g ++ be32 st.hh

/-- The MD5 sine-derived round constants. -/
def md5K : List Nat := [
  3614090360, 3905402710, 606105819, 3250441966, 4118548399, 1200080426,
  2821735955, 4249261313, 1770035416, 2336552879, 4294925233, 2304563134,
  1804603682, 4254626195, 2792965006, 1236535329, 4129170786, 3225465664,
  643717713, 3921069994, 3593408605, 38016083, 3634488961, 3889429448,
  568446438, 3275163606, 4107603335, 1163531501, 2850285829, 4243563512,
  1735328473, 2368359562, 4294588738, 2272392833, 1839030562, 4259657740,
  2763975236, 1272893353, 4139469664, 3200236656, 681279174, 3936430074,
  3572445317, 76029189, 3654602809, 3873151461, 530742520, 3299628645,
  4096336452, 1126891415, 2878612391, 4237533241, 1700485571, 2399980690,
  4293915773, 2240044497, 1873313359, 4264355552, 2734768916, 1309151649,
  4149444226, 3174756917, 718787259, 3951481745]

/-- The MD5 per-round left-rotation amounts. -/
def md5S : List Nat := [
  7, 12, 17, 22, 7, 12, 17, 22, 7, 12, 17, 22, 7, 12, 17, 22,
  5, 9, 14, 20, 5, 9, 14, 20, 5, 9, 14, 20, 5, 9, 14, 20,
  4, 11, 16, 23, 4, 11, 16, 23, 4, 11, 16, 23, 4, 11, 16, 23,
  6, 10, 15, 21, 6, 10, 15, 21, 6, 10, 15, 21, 6, 10, 15, 21]

/-- The MD5 working state. -/
structure Md5State where
  a : Nat
  b : Nat
  c : Nat
  d : Nat
deriving DecidableEq, Repr

/-- The MD5 initial state. -/
def md5Init : Md5State := ⟨1732584193, 4023233417, 2562383102, 271733878⟩

/-- The MD5 round function of round `i`. -/
def md5F (i b c d : Nat) : Nat :=
  if i < 16 then (b &&& c) ||| ((4294967295 ^^^ b) &&& d)
  else if i < 32 then (d &&& b) ||| ((4294967295 ^^^ d) &&& c)
  else if i < 48 then b ^^^ c ^^^ d
  else c ^^^ (b ||| (4294967295 ^^^ d))

/-- The MD5 message-word index of round `i`. -/
def md5G (i : Nat) : Nat :=
  if i < 16 then i
  else if i < 32 then (5 * i + 1) % 16
  else if i < 48 then (3 * i + 5) % 16
  else (7 * i) % 16

/-- One MD5 round over the block words `m`. -/
def md5Round (m : Nat → Nat) (st : Md5State) (i : Nat) : Md5State :=
  let f := w32 (md5F i st.b st.c st.d + st.a + md5K.getD i 0 + m (md5G i))
  ⟨st.d, w32 (st.b + rotl32 (md5S.getD i 0) f), st.b, st.c⟩

/-- MD5 compression of one 64-byte block into the chaining state. -/
def md5ProcessChunk (st : Md5State) (chunk : List Nat) : Md5State :=
  let r := (List.range 64).foldl (md5Round (leWord chunk)) st
  ⟨w32 (st.a + r.a), w32 (st.b + r.b), w32 (st.c + r.c), w32 (st.d + r.d)⟩

/-- The MD5 digest (16 bytes) of a byte message. -/
def md5Bytes (msg : List Nat) : List Nat :=
  let st := (chunks64 (padMsg le64 msg)).foldl md5ProcessChunk md5Init
  le32 st.a ++ le32 st.b ++ le32 st.c ++ le32 st.d

/-- `calc_sha256` (api.py lines 14-24): lowercase-hex SHA-256 of the UTF-8
encoded string. -/
def calc_sha256 (text : String) : String := bytesToHex (sha256Bytes (utf8Encode text))

/-- `calc_md5` on a string (api.py lines 40-41): lowercase-hex MD5 of the
UTF-8 encoded string. -/
def calc_md5_string (data : String) : String := bytesToHex (md5Bytes (utf8Encode data))

/-- The login request body of api.py lines 159-168. -/
structure LoginPayload where
  countryCode : String
  account : String
  password : String
  browser : String
  equipment : String
  loginMethod : String
  timestamp : String
  language : String
deriving DecidableEq, Repr

/-- The body `SNClient.login` posts (api.py lines 156-168), given the
random code `rc` and timestamp the code endpoint returned:
`password` is `calc_sha256(calc_md5(password) + rc)` (line 158). -/
def loginPayload (email password rc timestamp : String) : LoginPayload :=
  { countryCode := "1"
    account := email
    password := calc_sha256 (calc_md5_string password ++ rc)
    browser := "Chrome134"
    equipment := "1"
    loginMethod := "1"
    timestamp := timestamp
    language := "en" }

/-- Whether every character of `s` is a lowercase hexadecimal digit (the
alphabet `hexdigest` emits). -/
def isLowerHex (s : String) : Bool :=
  s.data.all (fun c => "0123456789abcdef".data.contains c)

/-! ### Concrete remote trees used in the scenario theorems -/

/-- The spec §8 scenario: root holds Directory id 5 `"Docs"`, which holds
File id 42 `"report.pdf"`. -/
def docsTree : Tree := fun d =>
  if d = 0 then [⟨"Y", 5, "Docs", 0⟩]
  else if d = 5 then [⟨"N", 42, "report.pdf", 5⟩]
  else []

/-- Two directories both named `"Notes"` under root, the time-descending
listing delivering id 10 before id 11 (C7 scenario). -/
def notesTree : Tree := fun d =>
  if d = 0 then [⟨"Y", 10, "Notes", 0⟩, ⟨"Y", 11, "Notes", 0⟩] else []

/-- A root holding only a File named `"Notes"` (no dot in the name). -/
def fileNotesTree : Tree := fun d =>
  if d = 0 then [⟨"N", 3, "Notes", 0⟩] else []

/-- A root holding a Directory literally named `"archive.old"`. -/
def archiveTree : Tree := fun d =>
  if d = 0 then [⟨"Y", 8, "archive.old", 0⟩] else []

/-- A root holding a single File `"a.txt"` (id 5). -/
def rootFileTree : Tree := fun d =>
  if d = 0 then [⟨"N", 5, "a.txt", 0⟩] else []

/-! ### Theorems -/

theorem walkDirs_ok_count (token : Option String) (tree : Tree) (parts : List String) :
    ∀ (ds : List String) (i : Nat) (cur : Option Entry) (items : List Entry)
      (out : Option Entry × List Entry),
      (walkDirs token tree parts ds i cur items).1 = .ok out →
      (walkDirs token tree parts ds i cur items).2 = ds.length := by
  intro ds
  induction ds with
  | nil => intro i cur items out h; simp [walkDirs]
  | cons part rest ih =>
    intro i cur items out h
    simp only [walkDirs] at h ⊢
    cases hf : items.find?
        (fun it => decide (it.file_name = part) && decide (it.kind = EntryKind.directory)) with
    | none => rw [hf] at h; simp at h
    | some e =>
      rw [hf] at h
      dsimp only at h ⊢
      cases token with
      | none => simp [lsById] at h
      | some t =>
        simp only [lsById] at h ⊢
        simp only [List.length_cons]
        exact congrArg (· + 1) (ih (i + 1) (some e) ((tree e.id).map materialize) out h)

theorem walkDirs_ok_kind (token : Option String) (tree : Tree) (parts : List String) :
    ∀ (ds : List String) (i : Nat) (cur : Option Entry) (items : List Entry)
      (e : Entry) (its : List Entry),
      (walkDirs token tree parts ds i cur items).1 = .ok (some e, its) →
      (∀ c, cur = some c → c.kind = .directory) →
      e.kind = .directory := by
  intro ds
  induction ds with
  | nil =>
    intro i cur items e its h hcur
    simp [walkDirs] at h
    exact hcur e (h.1.symm ▸ rfl)
  | cons part rest ih =>
    intro i cur items e its h hcur
    simp only [walkDirs] at h
    cases hf : items.find?
        (fun it => decide (it.file_name = part) && decide (it.kind = EntryKind.directory)) with
    | none => rw [hf] at h; simp at h
    | some f =>
      rw [hf] at h
      dsimp only at h
      cases token with
      | none => simp [lsById] at h
      | some t =>
        simp only [lsById] at h
        have hfk : f.kind = EntryKind.directory := by
          have := List.find?_some hf
          simp at this
          exact this.2
        exact ih (i + 1) (some f) ((tree f.id).map materialize) e its h
          (by intro c hc; cases hc; exact hfk)


theorem walkDirs_not_found (token : Option String) (tree : Tree) (parts : List String)
    (part : String) (rest : List String) (i : Nat) (cur : Option Entry)
    (items : List Entry)
    (hf : items.find?
      (fun it => decide (it.file_name = part) && decide (it.kind = EntryKind.directory)) = none) :
    walkDirs token tree parts (part :: rest) i cur items =
      (.error (.fileFolderNotFound ("Directory not found: " ++ part ++ " in " ++
        ("/" ++ String.intercalate "/" (parts.take (i + 1))))), 0) := by
  simp only [walkDirs]
  rw [hf]

theorem resolveAll_entries (token : Option String) (tree : Tree) :
    ∀ es : List Entry, resolveAll token tree (es.map .entry) = (.ok es, 0) := by
  intro es
  induction es with
  | nil => rfl
  | cons e es ih =>
    simp only [List.map_cons, resolveAll, getItem]
    rw [ih]

/-- C10: `delete` on the empty batch, while authenticated, raises
`IndexError` (reading `to_delete[0]`) — an error outside the documented
taxonomy — before any delete request is issued (zero requests of any
kind). -/
theorem delete_empty_batch (token : String) (tree : Tree) :
    delete (some token) tree (.batch []) = (.error .indexError, 0) := rfl

/-- C6: batch delete requires one shared parent directory: if some resolved
item's `directory_id` differs from the first's, `delete` fails with
`FileFolderNotFound` and no delete request is issued; if all agree, exactly
one delete request is issued carrying the full id list. -/
theorem delete_batch_same_parent (token : String) (tree : Tree)
    (first : Entry) (rest : List Entry) :
    ((∃ e ∈ first :: rest, e.directory_id ≠ first.directory_id) →
      ∃ msg, delete (some token) tree (.batch ((first :: rest).map .entry)) =
        (.error (.fileFolderNotFound msg), 0)) ∧
    ((∀ e ∈ first :: rest, e.directory_id = first.directory_id) →
      delete (some token) tree (.batch ((first :: rest).map .entry)) =
        (.ok ⟨first.directory_id, (first :: rest).map (fun i => i.id)⟩, 0)) := by
  have hres := resolveAll_entries (some token) tree (first :: rest)
  constructor
  · rintro ⟨e, he, hne⟩
    have hsome : ((first :: rest).find?
        (fun i => !decide (i.directory_id = first.directory_id))).isSome := by
      rw [List.find?_isSome]
      exact ⟨e, he, by simp [hne]⟩
    rcases Option.isSome_iff_exists.mp hsome with ⟨bad, hbad⟩
    refine ⟨"Files are not in the same directory: " ++ bad.file_name, ?_⟩
    simp only [delete]
    rw [hres]
    dsimp only
    rw [hbad]
  · intro hall
    have hnone : (first :: rest).find?
        (fun i => !decide (i.directory_id = first.directory_id)) = none := by
      rw [List.find?_eq_none]
      intro x hx
      simp [hall x hx]
    simp only [delete]
    rw [hres]
    dsimp only
    rw [hnone]

/-- C8: every listing request carries the fixed parameters `pageNo=1`,
`pageSize=100`, `order="time"`, `sequence="desc"` (one page only); each
response item with folder flag `"Y"` becomes a `Directory` and every other
item a `File`; and an unauthenticated `ls` fails with the authentication
error before any listing request is issued. -/
theorem ls_request_shape :
    (∀ (token : String) (tree : Tree) (d : Int),
      ls (some token) tree (.int d) =
        (.ok (⟨d, 1, 100, "time", "desc"⟩, (tree d).map materialize), 1)) ∧
    (∀ it : RawItem, ((materialize it).kind = .directory ↔ it.isFolder = "Y") ∧
      ((materialize it).kind = .file ↔ ¬ it.isFolder = "Y")) ∧
    (∀ (tree : Tree) (d : DirRef), ls none tree d =
      (.error (.authenticationError "Must be authenticated to list files"), 0)) := by
  refine ⟨?_, ?_, ?_⟩
  · intro token tree d
    by_cases hd : d = 0 <;>
      simp [ls, getDirectoryId, lsById, hd]
  · intro it
    by_cases h : it.isFolder = "Y" <;> simp [materialize, h]
  · intro tree d
    rfl

/-- C1 counterexample: resolving `"/"` does invoke the Remote Directory
Lister — the workaround of api.py line 229 lists the root — so the root
resolution is not produced without a Lister call. -/
theorem resolve_root_lister_called :
    (getItemStr (some "tok") docsTree "/").2 ≠ 0 := by decide

/-- C1 (amended): resolving the empty path returns the synthetic root
Directory (`id = 0`) with zero Lister calls, while resolving `"/"` returns
a Directory with `id = 0` at the cost of exactly one Lister call (the
root-listing workaround): the first listed item's parent when the root is
nonempty, the synthetic root otherwise. -/
theorem resolve_root (token : String) (tree : Tree)
    (hroot : ∀ it ∈ tree 0, it.directoryId = 0) :
    (∃ e : Entry, getItemStr (some token) tree "/" = (.ok e, 1) ∧
      e.kind = .directory ∧ e.id = 0) ∧
    getItemStr (some token) tree "" = (.ok rootDirectory, 0) := by
  constructor
  · simp only [getItemStr, lsById, if_pos rfl]
    cases htree : tree 0 with
    | nil => exact ⟨rootDirectory, by simp, rfl, rfl⟩
    | cons it its =>
      refine ⟨(materialize it).parent, by simp, rfl, ?_⟩
      have h0 : it.directoryId = 0 := hroot it (by rw [htree]; exact List.mem_cons_self _ _)
      unfold materialize Entry.parent
      by_cases hY : it.isFolder = "Y" <;> simp [hY, h0]
  · rfl

/-- C1 witness. -/
theorem resolve_root_witness :
    (∀ it ∈ docsTree 0, it.directoryId = 0) ∧
    ((∃ e : Entry, getItemStr (some "tok") docsTree "/" = (.ok e, 1) ∧
      e.kind = .directory ∧ e.id = 0) ∧
      getItemStr (some "tok") docsTree "" = (.ok rootDirectory, 0)) :=
  ⟨by decide, resolve_root "tok" docsTree (by decide)⟩

/-- C2: when a directory segment has no case-sensitively matching Directory
child, the walk fails at once with `FileFolderNotFound` naming exactly that
segment and the slash-joined prefix of the path up to and including it, and
makes no further Lister calls; concretely, `/Ghost/x` on the scenario tree
fails with `Directory not found: Ghost in /Ghost` after the single root
listing, and `/Docs/missing.pdf` fails with
`File not found: missing.pdf in /Docs` after the two listings. -/
theorem missing_segment_error :
    (∀ (token : Option String) (tree : Tree) (parts : List String)
        (part : String) (rest : List String) (i : Nat) (cur : Option Entry)
        (items : List Entry),
        items.find? (fun it => decide (it.file_name = part) &&
          decide (it.kind = EntryKind.directory)) = none →
        walkDirs token tree parts (part :: rest) i cur items =
          (.error (.fileFolderNotFound ("Directory not found: " ++ part ++ " in " ++
            ("/" ++ String.intercalate "/" (parts.take (i + 1))))), 0)) ∧
    getItemStr (some "tok") docsTree "/Ghost/x" =
      (.error (.fileFolderNotFound "Directory not found: Ghost in /Ghost"), 1) ∧
    getItemStr (some "tok") docsTree "/Docs/missing.pdf" =
      (.error (.fileFolderNotFound "File not found: missing.pdf in /Docs"), 2) := by
  refine ⟨?_, by decide, by decide⟩
  intro token tree parts part rest i cur items hf
  exact walkDirs_not_found token tree parts part rest i cur items hf

/-- C2 witness. -/
theorem missing_segment_error_witness :
    (((docsTree 0).map materialize).find? (fun it => decide (it.file_name = "Ghost") &&
        decide (it.kind = EntryKind.directory)) = none) ∧
    walkDirs (some "tok") docsTree ["Ghost", "x"] ["Ghost", "x"] 0 none
        ((docsTree 0).map materialize) =
      (.error (.fileFolderNotFound ("Directory not found: " ++ "Ghost" ++ " in " ++
        ("/" ++ String.intercalate "/" (["Ghost", "x"].take 1)))), 0) :=
  ⟨by decide, missing_segment_error.1 (some "tok") docsTree ["Ghost", "x"] "Ghost" ["x"]
    0 none ((docsTree 0).map materialize) (by decide)⟩

/-- C7: within one directory the scan takes the first entry, in Lister
order, whose `file_name` matches and which is a Directory; with two
directories both named `"Notes"` under root, `resolve("/Notes")` returns
the one listed first (id 10), not an error. -/
theorem duplicate_names_first_match :
    (∀ (pre suf : List Entry) (d : Entry) (part : String),
        d.file_name = part → d.kind = .directory →
        (∀ x ∈ pre, ¬(x.file_name = part ∧ x.kind = EntryKind.directory)) →
        (pre ++ d :: suf).find? (fun it => decide (it.file_name = part) &&
          decide (it.kind = EntryKind.directory)) = some d) ∧
    getItemStr (some "tok") notesTree "/Notes" =
      (.ok ⟨.directory, 10, "Notes", some 0⟩, 2) := by
  refine ⟨?_, by decide⟩
  intro pre suf d part hname hkind hpre
  rw [List.find?_append]
  have hnone : pre.find? (fun it => decide (it.file_name = part) &&
      decide (it.kind = EntryKind.directory)) = none := by
    rw [List.find?_eq_none]
    intro x hx
    have := hpre x hx
    simp only [Bool.and_eq_true, decide_eq_true_eq]
    tauto
  rw [hnone]
  simp [List.find?_cons_of_pos, hname, hkind]

/-- C7 witness. -/
theorem duplicate_names_first_match_witness :
    (⟨EntryKind.directory, 10, "Notes", some 0⟩ : Entry).file_name = "Notes" ∧
    ([] ++ (⟨EntryKind.directory, 10, "Notes", some 0⟩ : Entry) ::
        [⟨EntryKind.directory, 11, "Notes", some 0⟩]).find?
      (fun it : Entry => decide (it.file_name = "Notes") &&
        decide (it.kind = EntryKind.directory)) =
      some ⟨EntryKind.directory, 10, "Notes", some 0⟩ :=
  ⟨rfl, duplicate_names_first_match.1 [] [⟨EntryKind.directory, 11, "Notes", some 0⟩]
    ⟨EntryKind.directory, 10, "Notes", some 0⟩ "Notes" rfl rfl (by simp)⟩

/-- C3: the final segment is file-classified iff it contains a `.`: a
dot-free final segment is looked up only among Directory children, so any
successful resolution of such a path returns a Directory, and a File of
that exact name is never returned (concretely, `/Notes` fails on a tree
whose root holds only a File named `Notes`); a dotted final segment is
looked up among all entries, so a Directory named `archive.old` and a File
named `report.pdf` are both returned by the final lookup. -/
theorem final_segment_heuristic :
    (∀ (token : Option String) (tree : Tree) (s : String) (e : Entry),
        ((strippedParts s).getLastD "").data.contains '.' = false →
        (getItemStr token tree s).1 = .ok e →
        e.kind = .directory) ∧
    getItemStr (some "tok") fileNotesTree "/Notes" =
      (.error (.fileFolderNotFound "Directory not found: Notes in /Notes"), 1) ∧
    getItemStr (some "tok") archiveTree "/archive.old" =
      (.ok ⟨.directory, 8, "archive.old", some 0⟩, 1) ∧
    getItemStr (some "tok") docsTree "/Docs/report.pdf" =
      (.ok ⟨.file, 42, "report.pdf", some 5⟩, 2) := by
  refine ⟨?_, by decide, by decide, by decide⟩
  intro token tree s e hdot hok
  by_cases hs : s = "/"
  · subst hs
    simp only [getItemStr, if_pos rfl] at hok
    cases token with
    | none => simp [lsById] at hok
    | some t =>
      simp only [lsById] at hok
      cases htree : tree 0 with
      | nil =>
        rw [htree] at hok
        simp at hok
        rw [← hok]
        rfl
      | cons it its =>
        rw [htree] at hok
        simp at hok
        rw [← hok]
        rfl
  · simp only [getItemStr, if_neg hs] at hok
    generalize hp : strippedParts s = parts at hdot hok
    by_cases hnil : parts = []
    · rw [resolveParts, if_pos hnil] at hok
      simp at hok
      rw [← hok]
      rfl
    · rw [resolveParts, if_neg hnil] at hok
      simp only [hdot, Bool.false_eq_true, if_false] at hok
      cases token with
      | none => simp [lsById] at hok
      | some t =>
        simp only [lsById] at hok
        cases hw : (walkDirs (some t) tree parts parts 0 none
            ((tree 0).map materialize)).1 with
        | error err => rw [hw] at hok; simp at hok
        | ok pr =>
          obtain ⟨cur, items⟩ := pr
          rw [hw] at hok
          cases cur with
          | none => simp at hok
          | some f =>
            simp at hok
            rw [← hok]
            exact walkDirs_ok_kind (some t) tree parts parts 0 none
              ((tree 0).map materialize) f items hw (by intro c hc; cases hc)

/-- C3 witness. -/
theorem final_segment_heuristic_witness :
    (((strippedParts "/Docs").getLastD "").data.contains '.' = false) ∧
    ((getItemStr (some "tok") docsTree "/Docs").1 =
      .ok ⟨.directory, 5, "Docs", some 0⟩) ∧
    (⟨EntryKind.directory, 5, "Docs", some 0⟩ : Entry).kind = .directory :=
  ⟨by decide, by decide,
    final_segment_heuristic.1 (some "tok") docsTree "/Docs"
      ⟨EntryKind.directory, 5, "Docs", some 0⟩ (by decide) (by decide)⟩

/-- C5: a successfully resolving path whose final segment is
file-classified (contains a `.`) costs exactly one Lister call per path
segment — the root listing plus one listing per matched directory segment —
with the final segment looked up in the already-fetched last listing at no
extra call, so the total equals the number of segments. -/
theorem resolution_call_count (token : Option String) (tree : Tree) (s : String)
    (e : Entry) (c : Nat)
    (hdot : ((strippedParts s).getLastD "").data.contains '.' = true)
    (hok : getItemStr token tree s = (.ok e, c)) :
    c = (strippedParts s).length := by
  by_cases hs : s = "/"
  · subst hs
    exact absurd hdot (by decide)
  · simp only [getItemStr, if_neg hs] at hok
    generalize hp : strippedParts s = parts at hdot hok ⊢
    by_cases hnil : parts = []
    · subst hnil
      exact absurd hdot (by decide)
    · rw [resolveParts, if_neg hnil] at hok
      simp only [hdot, if_true] at hok
      cases token with
      | none => simp [lsById] at hok
      | some t =>
        simp only [lsById] at hok
        cases hw : (walkDirs (some t) tree parts parts.dropLast 0 none
            ((tree 0).map materialize)).1 with
        | error err => rw [hw] at hok; simp at hok
        | ok pr =>
          obtain ⟨cur, items⟩ := pr
          rw [hw] at hok
          dsimp only at hok
          have hcount := walkDirs_ok_count (some t) tree parts parts.dropLast 0 none
            ((tree 0).map materialize) (cur, items) hw
          cases hfind : items.find? (fun it =>
              decide (it.file_name = parts.getLastD "")) with
          | none => rw [hfind] at hok; simp at hok
          | some f =>
            rw [hfind] at hok
            simp at hok
            have hlen : parts.dropLast.length = parts.length - 1 :=
              List.length_dropLast parts
            have hpos : 0 < parts.length := List.length_pos.mpr hnil
            omega

/-- C5 witness. -/
theorem resolution_call_count_witness :
    (((strippedParts "/Docs/report.pdf").getLastD "").data.contains '.' = true) ∧
    getItemStr (some "tok") docsTree "/Docs/report.pdf" =
      (.ok ⟨.file, 42, "report.pdf", some 5⟩, 2) ∧
    (2 : Nat) = (strippedParts "/Docs/report.pdf").length :=
  ⟨by decide, by decide,
    resolution_call_count (some "tok") docsTree "/Docs/report.pdf"
      ⟨EntryKind.file, 42, "report.pdf", some 5⟩ 2 (by decide) (by decide)⟩

/-- C4 counterexample: the resolver returns the File `a.txt` (id 5), but
the normalizer, given the same path string, raises `ValueError` instead of
returning that id. -/
theorem normalize_file_path_value_error :
    (getItemStr (some "tok") rootFileTree "/a.txt").1 =
      .ok ⟨.file, 5, "a.txt", some 0⟩ ∧
    getDirectoryId (some "tok") rootFileTree (.str "/a.txt") =
      (.error (.valueError "Invalid directory type"), 1) := by decide

/-- C4 (amended): the normalizer maps `null`, the integer 0 and `"/"` to
directory id 0, a raw integer to itself, and an already-resolved Directory
entry to its own id, all with zero Lister calls; a File entry raises
`ValueError`; a path string resolving to a Directory yields that entry's
id, while a path string resolving to a File falls through the
`isinstance` chain and raises `ValueError`. -/
theorem normalize_reference (token : String) (tree : Tree) :
    getDirectoryId (some token) tree .null = (.ok 0, 0) ∧
    getDirectoryId (some token) tree (.int 0) = (.ok 0, 0) ∧
    getDirectoryId (some token) tree (.str "/") = (.ok 0, 0) ∧
    (∀ i : Int, getDirectoryId (some token) tree (.int i) = (.ok i, 0)) ∧
    (∀ e : Entry, e.kind = .directory →
      getDirectoryId (some token) tree (.entry e) = (.ok e.id, 0)) ∧
    (∀ e : Entry, e.kind = .file →
      getDirectoryId (some token) tree (.entry e) =
        (.error (.valueError "Invalid directory type"), 0)) ∧
    (∀ (s : String) (e : Entry) (n : Nat), s ≠ "/" →
      getItemStr (some token) tree s = (.ok e, n) →
      getDirectoryId (some token) tree (.str s) =
        (if e.kind = .directory then (.ok e.id, n)
          else ((.error (.valueError "Invalid directory type")), n))) := by
  refine ⟨rfl, rfl, rfl, ?_, ?_, ?_, ?_⟩
  · intro i
    by_cases hi : i = 0 <;> simp [getDirectoryId, hi]
  · intro e he
    simp [getDirectoryId, he]
  · intro e he
    simp [getDirectoryId, he]
  · intro s e n hs hok
    simp only [getDirectoryId]
    rw [if_neg (by simp [hs])]
    rw [hok]

/-- C4 witness. -/
theorem normalize_reference_witness :
    ((⟨EntryKind.directory, 7, "x", some 0⟩ : Entry).kind = .directory) ∧
    getDirectoryId (some "tok") docsTree
        (.entry ⟨EntryKind.directory, 7, "x", some 0⟩) = (.ok 7, 0) :=
  ⟨rfl, (normalize_reference "tok" docsTree).2.2.2.2.1
    ⟨EntryKind.directory, 7, "x", some 0⟩ rfl⟩

/-- C6 witness. -/
theorem delete_batch_same_parent_witness :
    (∀ e ∈ [(⟨EntryKind.file, 42, "a", some 5⟩ : Entry),
        ⟨EntryKind.file, 43, "b", some 5⟩],
      e.directory_id = (⟨EntryKind.file, 42, "a", some 5⟩ : Entry).directory_id) ∧
    delete (some "tok") docsTree
        (.batch ([(⟨EntryKind.file, 42, "a", some 5⟩ : Entry),
          ⟨EntryKind.file, 43, "b", some 5⟩].map .entry)) =
      (.ok ⟨some 5, [42, 43]⟩, 0) :=
  ⟨by decide,
    (delete_batch_same_parent "tok" docsTree ⟨EntryKind.file, 42, "a", some 5⟩
      [⟨EntryKind.file, 43, "b", some 5⟩]).2 (by decide)⟩

theorem hexChar_mem (n : Nat) : "0123456789abcdef".data.contains (hexChar n) = true := by
  unfold hexChar
  generalize hm : n % 16 = m
  have hlt : m < 16 := hm ▸ Nat.mod_lt n (by norm_num)
  interval_cases m <;> decide

theorem flatMap_hex_all (bs : List Nat) :
    (bs.flatMap byteToHex).all (fun c => "0123456789abcdef".data.contains c) = true := by
  induction bs with
  | nil => rfl
  | cons b bs ih =>
    rw [List.flatMap_cons, List.all_append, ih, Bool.and_true]
    rw [byteToHex]
    simp only [List.all_cons, List.all_nil, Bool.and_true]
    rw [hexChar_mem, hexChar_mem]
    rfl

theorem bytesToHex_isLowerHex (bs : List Nat) : isLowerHex (bytesToHex bs) = true :=
  flatMap_hex_all bs

theorem flatMap_hex_length (bs : List Nat) :
    (bs.flatMap byteToHex).length = 2 * bs.length := by
  induction bs with
  | nil => rfl
  | cons b bs ih =>
    rw [List.flatMap_cons, List.length_append, ih]
    simp [byteToHex]
    omega

theorem bytesToHex_length (bs : List Nat) : (bytesToHex bs).length = 2 * bs.length :=
  flatMap_hex_length bs

theorem sha256Bytes_length (msg : List Nat) : (sha256Bytes msg).length = 32 := by
  unfold sha256Bytes
  simp [be32]

theorem md5Bytes_length (msg : List Nat) : (md5Bytes msg).length = 16 := by
  unfold md5Bytes
  simp [le32]

set_option maxRecDepth 400000 in
/-- RFC 1321 test vectors pinning the MD5 embedding to `hashlib.md5`
(one-block and padding-boundary two-block inputs). -/
theorem calc_md5_test_vectors :
    calc_md5_string "abc" = "900150983cd24fb0d6963f7d28e17f72" ∧
    calc_md5_string "" = "d41d8cd98f00b204e9800998ecf8427e" ∧
    calc_md5_string "aaaaaaaaaaaaaaaaaaaaaaaaaaaaaaaaaaaaaaaaaaaaaaaaaaaaaaaa" =
      "3b0c8ac703f828b04c6c197006d17218" := by
  refine ⟨by decide, by decide, by decide⟩

set_option maxRecDepth 400000 in
/-- FIPS 180-4 test vectors pinning the SHA-256 embedding to
`hashlib.sha256` (one-block and padding-boundary two-block inputs). -/
theorem calc_sha256_test_vectors :
    calc_sha256 "abc" =
      "ba7816bf8f01cfea414140de5dae2223b00361a396177a9cb410ff61f20015ad" ∧
    calc_sha256 "" =
      "e3b0c44298fc1c149afbf4c8996fb92427ae41e4649b934ca495991b7852b855" ∧
    calc_sha256 "aaaaaaaaaaaaaaaaaaaaaaaaaaaaaaaaaaaaaaaaaaaaaaaaaaaaaaaa" =
      "b35439a4ac6f0948b6d6f9e3c6af0f5f590ce20f1bde7090ef7970686ec6738a" := by
  refine ⟨by decide, by decide, by decide⟩

/-- C9: the password digest `login` posts is `SHA256(MD5(password) + code)`
— the lowercase-hex SHA-256 of the UTF-8 encoding of the lowercase-hex MD5
of the UTF-8 password concatenated with the one-time code — and both hex
digests are lowercase hexadecimal of lengths 32 and 64. -/
theorem login_password_digest (email password rc timestamp : String) :
    (loginPayload email password rc timestamp).password =
      bytesToHex (sha256Bytes (utf8Encode
        (bytesToHex (md5Bytes (utf8Encode password)) ++ rc))) ∧
    isLowerHex (bytesToHex (md5Bytes (utf8Encode password))) = true ∧
    (bytesToHex (md5Bytes (utf8Encode password))).length = 32 ∧
    isLowerHex ((loginPayload email password rc timestamp).password) = true ∧
    ((loginPayload email password rc timestamp).password).length = 64 := by
  refine ⟨rfl, bytesToHex_isLowerHex _, ?_, bytesToHex_isLowerHex _, ?_⟩
  · rw [bytesToHex_length, md5Bytes_length]
  · show (calc_sha256 (calc_md5_string password ++ rc)).length = 64
    unfold calc_sha256
    rw [bytesToHex_length, sha256Bytes_length]

end Sncloud
